import Mathlib

/-!
Shallow embedding of the CloudLaunch base VM plugin
(baselaunch/backend_plugins/base_vm_app.py).

Provider-side state is modelled as an immutable environment (`Provider`)
describing what exists in the account and what the provider returns for each
creation call; every provider call made by the plugin is recorded in an
explicit event trace (`Event`), so frame conditions (which mutations were or
were not issued) are decidable.  Python dictionary lookups with defaults are
modelled with `Option` plus `getD`; Python truthiness tests on strings
(`if not x`, `x or d`) are modelled by `pyTruthy` / `pyOr`.  Fallible
provider calls are modelled with `Except`, and the plugin's try/except
blocks become explicit matches on the `Except` value.
-/

namespace BaseVMApp

/-- Python truthiness of an optional string value: `None` and the empty
string are falsy, every other string is truthy. -/
def pyTruthy : Option String → Bool
  | none => false
  | some s => s ≠ ""

/-- Python `x or d` on an optional string: yields `d` when `x` is falsy. -/
def pyOr (v : Option String) (d : String) : String :=
  match v with
  | none => d
  | some s => if s = "" then d else s

/-- One firewall rule of the `firewall` configuration
(keys `src_group`, `protocol`, `from`, `to`, `cidr`). -/
structure FirewallRule where
  src_group : Option String := none
  protocol : Option String := none
  from_port : Option String := none
  to_port : Option String := none
  cidr : Option String := none
deriving DecidableEq, Repr

/-- One entry of the `firewall` list of the cloudlaunch config. -/
structure FirewallGroup where
  securityGroup : Option String := none
  description : Option String := none
  rules : List FirewallRule := []
deriving DecidableEq, Repr

/-- The nested `config_cloudlaunch` configuration dictionary.  A field that
is `none` models an absent key. -/
structure CloudLaunchConfig where
  customImageID : Option String := none
  keyPair : Option String := none
  firewall : Option (List FirewallGroup) := none
  rootStorageType : Option String := none
  rootStorageSize : Option Nat := none
  instanceType : Option String := none
  placementZone : Option String := none
  subnet : Option String := none
  network : Option String := none
  staticIP : Option String := none
deriving DecidableEq, Repr

/-- A CloudBridge key pair. -/
structure KeyPair where
  id : String
  name : String
  material : String
deriving DecidableEq, Repr

/-- A CloudBridge security group. -/
structure SecurityGroup where
  id : String
  name : String
deriving DecidableEq, Repr

/-- A CloudBridge network. -/
structure Network where
  id : String
deriving DecidableEq, Repr

/-- A CloudBridge floating IP, with its in-use flag. -/
structure FloatingIP where
  public_ip : String
  in_use : Bool
deriving DecidableEq, Repr

/-- A CloudBridge instance. -/
structure Instance where
  id : String
  public_ips : List String
deriving DecidableEq, Repr

/-- Outcome of one HEAD probe of the readiness poller: either an HTTP
response with a status code, or a connection failure. -/
inductive ProbeResult where
  | status (code : Nat)
  | connError
deriving DecidableEq, Repr

/-- The exceptions the poller body can raise:
`requests.exceptions.HTTPError` carrying the response status, and
`requests.exceptions.ConnectionError`. -/
inductive HttpExc where
  | httpError (code : Nat)
  | connectionError
deriving DecidableEq, Repr

/-- A provider call issued by the plugin.  Read-only calls and mutations are
both recorded, so a claim about "zero provider mutations" can be read off an
empty trace. -/
inductive Event where
  | findKP (name : String)
  | createKP (name : String)
  | findSG (name : String)
  | createSG (name : String) (description : String) (network_id : Option String)
  | getOrCreateDefaultNetwork
  | addRuleSelf (sg_id : String)
  | addRuleCidr (sg_id : String) (protocol from_port to_port cidr : Option String)
  | printed
  | getImage (image_id : String)
  | createLaunchConfig
  | addVolumeDevice (source : String) (size : Nat) (is_root : Bool)
  | createInstance (name image inst_type : String) (subnet : Option String)
      (kp_name : String) (zone : Option String) (user_data : String)
      (has_launch_config : Bool)
  | waitTillReady
  | addFloatingIPToInstance (ip : String)
  | refreshInstance
  | listFloatingIPs
  | createFloatingIP
  | updateState (action : String)
deriving DecidableEq, Repr

/-- Immutable model of the cloud provider account and of the values its
creation calls return.  `add_rule_ok` tells, per security-group name and
rule, whether the corresponding `add_rule` call succeeds or raises. -/
structure Provider where
  key_pairs : List KeyPair
  security_groups : List SecurityGroup
  default_network : Option Network
  floating_ips : List FloatingIP
  add_rule_ok : String → FirewallRule → Bool
  fresh_sg_id : String
  fresh_kp : String → KeyPair
  new_floating_ip : String
  created_instance : Instance
  refreshed_instance : Instance
  probe : Nat → ProbeResult

/-- `provider.security.key_pairs.find(name=kp_name)`. -/
def find_key_pairs (p : Provider) (name : String) : List KeyPair :=
  p.key_pairs.filter (fun kp => kp.name == name)

/-- `_get_or_create_kp`: return the first key pair found with the supplied
name, else create one. -/
def get_or_create_kp (p : Provider) (kp_name : String) : KeyPair × List Event :=
  match find_key_pairs p kp_name with
  | kp :: _ => (kp, [Event.findKP kp_name])
  | [] => (p.fresh_kp kp_name, [Event.findKP kp_name, Event.createKP kp_name])

/-- `provider.security.security_groups.find(name=sg_name)`. -/
def find_security_groups (p : Provider) (name : String) : List SecurityGroup :=
  p.security_groups.filter (fun sg => sg.name == name)

/-- The nested scan of `_get_or_create_sg`:
`for sg1 in sgs: for sg2 in sgs: if sg1 == sg2: return sg1`. -/
def double_scan (sgs : List SecurityGroup) : Option SecurityGroup :=
  sgs.findSome? (fun sg1 => if sgs.any (fun sg2 => sg1 == sg2) then some sg1 else none)

/-- `_get_network_id`: the configured `network` if truthy, else the id of
the provider default network when `get_or_create_default()` yields one. -/
def get_network_id (p : Provider) (c : CloudLaunchConfig) :
    Option String × List Event :=
  let net_id := c.network
  if pyTruthy net_id then (net_id, [])
  else
    match p.default_network with
    | some net => (some net.id, [Event.getOrCreateDefaultNetwork])
    | none => (net_id, [Event.getOrCreateDefaultNetwork])

/-- `_get_or_create_sg`: fetch an existing security group named `sg_name`
or create one (resolving the network id only on the create path). -/
def get_or_create_sg (p : Provider) (c : CloudLaunchConfig)
    (sg_name sg_desc : String) : SecurityGroup × List Event :=
  match double_scan (find_security_groups p sg_name) with
  | some sg => (sg, [Event.findSG sg_name])
  | none =>
    let r := get_network_id p c
    (⟨p.fresh_sg_id, sg_name⟩,
      Event.findSG sg_name :: r.snd ++ [Event.createSG sg_name sg_desc r.fst])

/-- One `sg.add_rule(...)` call: the self-referencing form when `src_group`
is truthy, else the protocol/port/cidr form.  The call raises exactly when
`add_rule_ok` says so. -/
def add_rule (p : Provider) (sg : SecurityGroup) (rule : FirewallRule) :
    Except String Unit × List Event :=
  let ev := if pyTruthy rule.src_group then Event.addRuleSelf sg.id
    else Event.addRuleCidr sg.id rule.protocol rule.from_port rule.to_port rule.cidr
  if p.add_rule_ok sg.name rule then (Except.ok (), [ev])
  else (Except.error "add_rule failed", [ev])

/-- The per-rule loop of `apply_app_firewall_settings`: each `add_rule` is
wrapped in `try ... except Exception as e: print(e)`, so a failure is
printed and the loop continues with the next rule. -/
def apply_rules (p : Provider) (sg : SecurityGroup) :
    List FirewallRule → List Event
  | [] => []
  | rule :: rest =>
    let r := add_rule p sg rule
    let handled := match r.fst with
      | Except.ok _ => []
      | Except.error _ => [Event.printed]
    r.snd ++ handled ++ apply_rules p sg rest

/-- `apply_app_firewall_settings`: the `for group in ...` loop ends with
`return sg` inside its body, so only the head of the firewall list is ever
processed; an absent or empty list falls through and returns `None`. -/
def apply_app_firewall_settings (p : Provider) (c : CloudLaunchConfig) :
    Option SecurityGroup × List Event :=
  match c.firewall.getD [] with
  | [] => (none, [])
  | group :: _ =>
    let sg_name := pyOr group.securityGroup "CloudLaunchDefault"
    let sg_desc := pyOr group.description "Created by CloudLaunch"
    let r := get_or_create_sg p c sg_name sg_desc
    (some r.fst, r.snd ++ apply_rules p r.fst group.rules)

/-- `_get_cb_launch_config`: a launch config with one root volume device is
composed exactly when `rootStorageType` is `"volume"`; otherwise `lc` stays
`None`. -/
def get_cb_launch_config (image : String) (c : CloudLaunchConfig) :
    Option (List (String × Nat × Bool)) × List Event :=
  if c.rootStorageType.getD "instance" = "volume" then
    let size := c.rootStorageSize.getD 20
    (some [(image, size, true)],
      [Event.createLaunchConfig, Event.addVolumeDevice image size true])
  else (none, [])

/-- `requests.head(url)` followed by `r.raise_for_status()`:
a connection failure raises `ConnectionError`; a status in [400, 600)
raises `HTTPError`; otherwise the body returns normally. -/
def head_and_raise : ProbeResult → Except HttpExc Unit
  | ProbeResult.connError => Except.error HttpExc.connectionError
  | ProbeResult.status code =>
    if 400 ≤ code ∧ code < 600 then Except.error (HttpExc.httpError code)
    else Except.ok ()

/-- The try/except block of one `wait_for_http` iteration.  `ok true` means
the iteration executed `return`; `ok false` means it fell through to
`count += 1`; an `error` would be an exception not caught by the two
`except` clauses (there is none, since both exception kinds are handled). -/
def try_block (r : ProbeResult) : Except HttpExc Bool :=
  match head_and_raise r with
  | Except.ok _ => Except.ok true
  | Except.error (HttpExc.httpError code) =>
    Except.ok ((code == 401) || (code == 403))
  | Except.error HttpExc.connectionError => Except.ok false

/-- The `while count < max_retries` loop of `wait_for_http`; `fuel` is
`max_retries - count`.  The second component of a normal result counts the
sleep+probe cycles performed. -/
inductive WaitOutcome where
  | ready
  | exhausted
deriving DecidableEq, Repr

def wait_loop (probe : Nat → ProbeResult) :
    Nat → Nat → Except HttpExc (WaitOutcome × Nat)
  | 0, _ => Except.ok (WaitOutcome.exhausted, 0)
  | fuel + 1, count =>
    match try_block (probe count) with
    | Except.error e => Except.error e
    | Except.ok true => Except.ok (WaitOutcome.ready, 1)
    | Except.ok false =>
      match wait_loop probe fuel (count + 1) with
      | Except.error e => Except.error e
      | Except.ok (o, n) => Except.ok (o, n + 1)

/-- `wait_for_http` with the probe outcomes supplied by `probe` (the result
of the HEAD request of the k-th iteration, 0-based). -/
def wait_for_http (probe : Nat → ProbeResult) (max_retries : Nat) :
    Except HttpExc (WaitOutcome × Nat) :=
  wait_loop probe max_retries 0

/-- `wait_for_http` at its default `max_retries=200`. -/
def wait_for_http_default (probe : Nat → ProbeResult) :
    Except HttpExc (WaitOutcome × Nat) :=
  wait_for_http probe 200

/-- The `fip = None; for ip in fips: if not ip.in_use(): fip = ip` scan of
`attach_public_ip`: the last not-in-use floating IP wins. -/
def last_available_fip (fips : List FloatingIP) : Option FloatingIP :=
  fips.foldl (fun acc ip => if ip.in_use then acc else some ip) none

/-- `attach_public_ip`: reuse the last available floating IP, else allocate
a new one; an instance that already has a public IP keeps its first one and
no provider call is made. -/
def attach_public_ip (p : Provider) (inst : Instance) :
    Option String × List Event :=
  if inst.public_ips.isEmpty then
    match last_available_fip p.floating_ips with
    | some fip =>
      (some fip.public_ip,
        [Event.listFloatingIPs, Event.printed,
         Event.addFloatingIPToInstance fip.public_ip])
    | none =>
      (some p.new_floating_ip,
        [Event.listFloatingIPs, Event.createFloatingIP,
         Event.addFloatingIPToInstance p.new_floating_ip])
  else if inst.public_ips.length > 0 then (inst.public_ips[0]?, [])
  else (none, [])

/-- The `cloud_version_config` fields `launch_app` reads. -/
structure CloudVersionConfig where
  image_id : String
  default_instance_type : String
deriving DecidableEq, Repr

/-- The `cloudLaunch` results dictionary assembled by `launch_app`.
`applicationURL = none` models the key being absent (non-base apps). -/
structure LaunchResult where
  keyPair_id : String
  keyPair_name : String
  keyPair_material : String
  securityGroup_id : String
  securityGroup_name : String
  instance_id : String
  publicIP : Option String
  applicationURL : Option String
deriving DecidableEq, Repr

/-- `launch_app`: the full orchestration.  The only failure modelled is the
unconditional `sg.id` attribute access in the results assembly, which
raises when `apply_app_firewall_settings` returned `None`; the environment
supplies the outcome of every provider call. -/
def launch_app (base_app : Bool) (p : Provider) (name : String)
    (cvc : CloudVersionConfig) (app_config : Option CloudLaunchConfig)
    (user_data : String) : Except String LaunchResult × List Event :=
  let c := app_config.getD {}
  let img := pyOr c.customImageID cvc.image_id
  let rkp := get_or_create_kp p (pyOr c.keyPair "cloudlaunch_key_pair")
  let kp := rkp.fst
  let rfw := apply_app_firewall_settings p c
  let rlc := get_cb_launch_config img c
  let inst_type := c.instanceType.getD cvc.default_instance_type
  let ev1 := Event.getImage img ::
    Event.updateState "Retrieving or creating a keypair" :: rkp.snd ++
    Event.updateState "Applying firewall settings" :: rfw.snd ++ rlc.snd ++
    [Event.printed, Event.printed,
     Event.updateState ("Launching an instance of type " ++ inst_type),
     Event.createInstance name img inst_type c.subnet kp.name c.placementZone
       user_data rlc.fst.isSome,
     Event.updateState "Waiting for instance", Event.waitTillReady]
  let inst :=
    if pyTruthy c.staticIP then p.refreshed_instance else p.created_instance
  let ev_inst :=
    if pyTruthy c.staticIP then
      ev1 ++ [Event.updateState "Assigning requested floating IP",
              Event.addFloatingIPToInstance (c.staticIP.getD ""),
              Event.refreshInstance]
    else ev1
  match rfw.fst with
  | none =>
    (Except.error "AttributeError: NoneType object has no attribute id",
      ev_inst)
  | some sg =>
    let rip := attach_public_ip p inst
    let pubIP := rip.fst
    let ev2 := ev_inst ++ rip.snd ++
      [Event.updateState "Instance creation successful"]
    if base_app then
      if pyTruthy pubIP then
        let url := "http://" ++ pubIP.getD "" ++ "/"
        let ev3 := ev2 ++ [Event.updateState "Waiting for application"]
        match wait_for_http_default p.probe with
        | Except.ok _ =>
          (Except.ok ⟨kp.id, kp.name, kp.material, sg.id, sg.name,
            inst.id, pubIP, some url⟩, ev3)
        | Except.error _ => (Except.error "unhandled HTTP condition", ev3)
      else
        (Except.ok ⟨kp.id, kp.name, kp.material, sg.id, sg.name,
          inst.id, pubIP, some "N/A"⟩, ev2)
    else
      (Except.ok ⟨kp.id, kp.name, kp.material, sg.id, sg.name,
        inst.id, pubIP, none⟩, ev2)

/-- Response classes after which the claimed poller returns: a 2xx success
or a 401/403 auth challenge. -/
def ready_probe : ProbeResult → Bool
  | ProbeResult.status c => (200 ≤ c && c < 300) || c == 401 || c == 403
  | ProbeResult.connError => false

/-- A sample provider environment for concrete instantiations: an empty
account with a default network `defnet`. -/
def p0 : Provider :=
  ⟨[], [], some ⟨"defnet"⟩, [], fun _ _ => true, "sg-new-id",
   fun n => ⟨"kp-id", n, "kp-material"⟩, "9.9.9.9",
   ⟨"i-1", []⟩, ⟨"i-1", ["5.5.5.5"]⟩, fun _ => ProbeResult.connError⟩

/-- A provider with two available floating IPs and one in use. -/
def pReuse : Provider :=
  { p0 with floating_ips :=
      [⟨"1.1.1.1", false⟩, ⟨"2.2.2.2", false⟩, ⟨"3.3.3.3", true⟩] }

/-- First sample firewall group, named `A`. -/
def gA : FirewallGroup := { securityGroup := some "A" }

/-- Second sample firewall group, named `B`. -/
def gB : FirewallGroup := { securityGroup := some "B" }

/-- A config whose firewall list has the two groups `A` and `B`. -/
def c2 : CloudLaunchConfig := { firewall := some [gA, gB] }

/-- A config whose `network` key is present but holds the empty string. -/
def cEmptyNet : CloudLaunchConfig := { network := some "" }

/-- A config with a present, non-empty `network` value. -/
def cNet : CloudLaunchConfig := { network := some "mynet" }

/-- A config whose firewall list is present and empty. -/
def cEmptyFW : CloudLaunchConfig := { firewall := some [] }

/-- A config requesting volume-backed root storage of unspecified size. -/
def cVol : CloudLaunchConfig := { rootStorageType := some "volume" }

/-- An instance with no public IP. -/
def inst0 : Instance := ⟨"i-1", []⟩

/-- An instance that already has two public IPs. -/
def inst1 : Instance := ⟨"i-2", ["5.5.5.5", "6.6.6.6"]⟩

/-- A sample cloud version config. -/
def cvc0 : CloudVersionConfig := ⟨"img", "m1"⟩

/-- An `add_rule_ok` oracle under which every rule addition raises. -/
def f0 : String → FirewallRule → Bool := fun _ _ => false

/-- An `add_rule_ok` oracle under which every rule addition succeeds. -/
def g0 : String → FirewallRule → Bool := fun _ _ => true

/-- A sample security group. -/
def sgA : SecurityGroup := ⟨"sg-1", "A"⟩

/-- A sample cidr-style firewall rule. -/
def rule0 : FirewallRule := {}

/-- A probe that succeeds with 200 on the third attempt, connection
failures before. -/
def probe3 : Nat → ProbeResult :=
  fun k => if k = 2 then ProbeResult.status 200 else ProbeResult.connError

theorem wait_loop_congr (p1 p2 : Nat → ProbeResult)
    (h : ∀ j, try_block (p1 j) = try_block (p2 j)) :
    ∀ fuel count, wait_loop p1 fuel count = wait_loop p2 fuel count := by
  intro fuel
  induction fuel with
  | zero => intro count; rfl
  | succ f ih => intro count; simp only [wait_loop, h count, ih (count + 1)]

theorem wait_loop_exhaust (q : Nat → ProbeResult)
    (hq : ∀ j, try_block (q j) = Except.ok false) :
    ∀ fuel count,
      wait_loop q fuel count = Except.ok (WaitOutcome.exhausted, fuel) := by
  intro fuel
  induction fuel with
  | zero => intro count; rfl
  | succ f ih => intro count; simp only [wait_loop, hq count, ih (count + 1)]

theorem wait_loop_ready (probe : Nat → ProbeResult) :
    ∀ (k fuel count : Nat), k < fuel →
      try_block (probe (count + k)) = Except.ok true →
      (∀ j, j < k → try_block (probe (count + j)) = Except.ok false) →
      wait_loop probe fuel count = Except.ok (WaitOutcome.ready, k + 1) := by
  intro k
  induction k with
  | zero =>
    intro fuel count hk hr _
    match fuel, hk with
    | f + 1, _ =>
      simp only [Nat.add_zero] at hr
      simp only [wait_loop, hr]
  | succ n ih =>
    intro fuel count hk hr hb
    match fuel, hk with
    | f + 1, hk =>
      have h0 : try_block (probe count) = Except.ok false := by
        have := hb 0 (Nat.succ_pos n)
        simpa using this
      have hr2 : try_block (probe (count + 1 + n)) = Except.ok true := by
        rw [show count + 1 + n = count + (n + 1) from by omega]
        exact hr
      have hb2 : ∀ j, j < n → try_block (probe (count + 1 + j)) = Except.ok false := by
        intro j hj
        rw [show count + 1 + j = count + (j + 1) from by omega]
        exact hb (j + 1) (Nat.succ_lt_succ hj)
      have hrec := ih f (count + 1) (Nat.lt_of_succ_lt_succ hk) hr2 hb2
      simp only [wait_loop, h0, hrec]

theorem try_block_of_ready (r : ProbeResult) (h : ready_probe r = true) :
    try_block r = Except.ok true := by
  cases r with
  | connError => simp [ready_probe] at h
  | status c =>
    simp [ready_probe] at h
    rcases h with (⟨h1, h2⟩ | h) | h
    · have : ¬(400 ≤ c ∧ c < 600) := by omega
      simp [try_block, head_and_raise, this]
    · subst h; rfl
    · subst h; rfl

theorem foldl_last_available (l : List FloatingIP) :
    ∀ acc : Option FloatingIP,
      l.foldl (fun acc ip => if ip.in_use then acc else some ip) acc
        = (match l.reverse.find? (fun ip => !ip.in_use) with
           | some y => some y
           | none => acc) := by
  induction l with
  | nil => intro acc; rfl
  | cons x t ih =>
    intro acc
    simp only [List.foldl_cons, List.reverse_cons, List.find?_append, ih]
    cases ht : t.reverse.find? (fun ip => !ip.in_use) with
    | some y => simp [Option.orElse]
    | none =>
      cases hx : x.in_use <;> simp [Option.orElse, List.find?, hx]

theorem last_available_fip_eq (l : List FloatingIP) :
    last_available_fip l = l.reverse.find? (fun ip => !ip.in_use) := by
  unfold last_available_fip
  rw [foldl_last_available]
  cases l.reverse.find? (fun ip => !ip.in_use) <;> rfl

theorem apply_firewall_fst_ignores_rule_failures (p : Provider)
    (f : String → FirewallRule → Bool) (c : CloudLaunchConfig) :
    (apply_app_firewall_settings { p with add_rule_ok := f } c).fst
      = (apply_app_firewall_settings p c).fst := by
  cases h : c.firewall.getD [] with
  | nil => simp [apply_app_firewall_settings, h]
  | cons g rest =>
    simp [apply_app_firewall_settings, h, get_or_create_sg, get_network_id,
      find_security_groups, double_scan]

theorem get_or_create_kp_ignores_rule_ok (p : Provider)
    (f : String → FirewallRule → Bool) (n : String) :
    get_or_create_kp { p with add_rule_ok := f } n = get_or_create_kp p n := rfl

theorem get_or_create_sg_ignores_rule_ok (p : Provider)
    (f : String → FirewallRule → Bool) (c : CloudLaunchConfig) (n d : String) :
    get_or_create_sg { p with add_rule_ok := f } c n d
      = get_or_create_sg p c n d := rfl

theorem attach_public_ip_ignores_rule_ok (p : Provider)
    (f : String → FirewallRule → Bool) (inst : Instance) :
    attach_public_ip { p with add_rule_ok := f } inst
      = attach_public_ip p inst := rfl

theorem launch_app_fst_ignores_rule_failures (p : Provider)
    (f : String → FirewallRule → Bool) (b : Bool) (name : String)
    (cvc : CloudVersionConfig) (ac : Option CloudLaunchConfig) (ud : String) :
    (launch_app b { p with add_rule_ok := f } name cvc ac ud).fst
      = (launch_app b p name cvc ac ud).fst := by
  unfold launch_app
  cases h : (ac.getD {}).firewall.getD [] with
  | nil =>
    simp [apply_app_firewall_settings, h]
  | cons g rest =>
    cases hw : wait_for_http_default p.probe <;>
      simp [apply_app_firewall_settings, h, get_or_create_kp_ignores_rule_ok,
        get_or_create_sg_ignores_rule_ok, attach_public_ip_ignores_rule_ok, hw] <;>
      split_ifs <;> rfl

/-- Claim C2 counterexample: a probe that yields HTTP 500 on every attempt
does not propagate out of wait_for_http: with max_retries 3 the poller
swallows the error on each cycle, performs all 3 cycles and returns
normally, contradicting the claimed unhandled propagation. -/
theorem wait_for_http_500_swallowed :
    wait_for_http (fun _ => ProbeResult.status 500) 3
      = Except.ok (WaitOutcome.exhausted, 3) := rfl

/-- Claim C2 amended: during wait_for_http, a probe yielding an HTTP error
status other than 2xx, 401 and 403 (e.g. 500) is caught and swallowed by
the poller, which continues looping exactly as it does for a connection
failure; no condition propagates to the caller. -/
theorem wait_for_http_error_like_conn_failure
    (probe : Nat → ProbeResult) (k maxr code : Nat)
    (h4 : 400 ≤ code) (h6 : code < 600) (h401 : code ≠ 401) (h403 : code ≠ 403) :
    try_block (ProbeResult.status code) = Except.ok false
  ∧ wait_for_http (fun j => if j = k then ProbeResult.status code else probe j)
        maxr
      = wait_for_http (fun j => if j = k then ProbeResult.connError else probe j)
        maxr := by
  have e1 : (code == 401) = false := by simp [h401]
  have e2 : (code == 403) = false := by simp [h403]
  have htb : try_block (ProbeResult.status code) = Except.ok false := by
    simp [try_block, head_and_raise, h4, h6, e1, e2]
  have hconn : try_block ProbeResult.connError = Except.ok false := rfl
  refine ⟨htb, ?_⟩
  unfold wait_for_http
  apply wait_loop_congr
  intro j
  by_cases hj : j = k <;> simp [hj, htb, hconn]

/-- Claim C2 amended, witnessed at probe 500, slot 0, two retries. -/
theorem wait_for_http_error_like_conn_failure_witness :
    (400 ≤ 500 ∧ 500 < 600 ∧ 500 ≠ 401 ∧ 500 ≠ 403)
  ∧ (try_block (ProbeResult.status 500) = Except.ok false
     ∧ wait_for_http
          (fun j => if j = 0 then ProbeResult.status 500
            else (fun _ => ProbeResult.connError) j) 2
        = wait_for_http
            (fun j => if j = 0 then ProbeResult.connError
              else (fun _ => ProbeResult.connError) j) 2) :=
  ⟨by decide,
   wait_for_http_error_like_conn_failure (fun _ => ProbeResult.connError)
     0 2 500 (by decide) (by decide) (by decide) (by decide)⟩

/-- Claim C3: wait_for_http returns on the first sleep+probe cycle whose
HEAD request yields a 2xx or a 401/403 response (having performed that
many cycles); when every attempt yields a connection failure it performs
exactly max_retries sleep+probe cycles (in particular 200 at the default),
no more, and returns normally without signalling failure. -/
theorem wait_for_http_ready_and_exhaustion
    (probe : Nat → ProbeResult) (maxr k : Nat) (hk : k < maxr)
    (hready : ready_probe (probe k) = true)
    (hbefore : ∀ j, j < k → try_block (probe j) = Except.ok false) :
    wait_for_http probe maxr = Except.ok (WaitOutcome.ready, k + 1)
  ∧ (∀ q : Nat → ProbeResult, (∀ j, q j = ProbeResult.connError) →
      wait_for_http q maxr = Except.ok (WaitOutcome.exhausted, maxr))
  ∧ (∀ q : Nat → ProbeResult, (∀ j, q j = ProbeResult.connError) →
      wait_for_http_default q = Except.ok (WaitOutcome.exhausted, 200)) := by
  refine ⟨?_, ?_, ?_⟩
  · unfold wait_for_http
    apply wait_loop_ready probe k maxr 0 hk
    · rw [Nat.zero_add]
      exact try_block_of_ready _ hready
    · intro j hj
      rw [Nat.zero_add]
      exact hbefore j hj
  · intro q hq
    exact wait_loop_exhaust q (fun j => by rw [hq j]; rfl) maxr 0
  · intro q hq
    exact wait_loop_exhaust q (fun j => by rw [hq j]; rfl) 200 0

/-- Claim C3, witnessed: a probe that answers 200 on the third attempt
makes wait_for_http return after exactly 3 cycles. -/
theorem wait_for_http_ready_and_exhaustion_witness :
    2 < 5 ∧ ready_probe (probe3 2) = true
  ∧ wait_for_http probe3 5 = Except.ok (WaitOutcome.ready, 3) :=
  ⟨by decide, by decide,
    (wait_for_http_ready_and_exhaustion probe3 5 2 (by decide) (by decide)
      (fun j hj => by
        have hne : probe3 j = ProbeResult.connError := by
          unfold probe3
          simp [show j ≠ 2 from by omega]
        rw [hne]
        rfl)).1⟩

/-- Claim C10: whenever attach_public_ip returns normally its result is a
public IP, never nil: the trailing nil-returning branch is unreachable
because the empty and non-empty public-IP cases cover every instance. -/
theorem attach_public_ip_always_some (p : Provider) (inst : Instance) :
    ((attach_public_ip p inst).fst).isSome = true := by
  unfold attach_public_ip
  cases hip : inst.public_ips with
  | nil => cases hfip : last_available_fip p.floating_ips <;> simp [hip, hfip]
  | cons ip rest => simp [hip]

/-- Claim C7: with rootStorageType absent or "instance" the launch config
builder returns nil and issues no provider call; with "volume" it builds a
launch config holding exactly one root volume device sourced from the
image and sized rootStorageSize (default 20) GB. -/
theorem get_cb_launch_config_storage (image : String) (c : CloudLaunchConfig) :
    ((c.rootStorageType = none ∨ c.rootStorageType = some "instance") →
      get_cb_launch_config image c = (none, []))
  ∧ (c.rootStorageType = some "volume" →
      get_cb_launch_config image c
        = (some [(image, c.rootStorageSize.getD 20, true)],
           [Event.createLaunchConfig,
            Event.addVolumeDevice image (c.rootStorageSize.getD 20) true])) := by
  constructor
  · rintro (h | h) <;> simp [get_cb_launch_config, h]
  · intro h
    simp [get_cb_launch_config, h]

/-- Claim C7, witnessed on a "volume" config with no declared size. -/
theorem get_cb_launch_config_storage_witness :
    cVol.rootStorageType = some "volume"
  ∧ get_cb_launch_config "img" cVol
      = (some [("img", 20, true)],
         [Event.createLaunchConfig, Event.addVolumeDevice "img" 20 true]) :=
  ⟨rfl, (get_cb_launch_config_storage "img" cVol).2 rfl⟩

/-- Claim C8 counterexample: a network value that is present but empty is
not returned verbatim; the code falls back to the provider default network
because it tests truthiness, not presence. -/
theorem get_network_id_empty_string_fallback :
    cEmptyNet.network.isSome = true
  ∧ (get_network_id p0 cEmptyNet).fst = some "defnet"
  ∧ (get_network_id p0 cEmptyNet).fst ≠ cEmptyNet.network := by decide

/-- Claim C8 amended: resolveNetworkId returns the configured network value
verbatim, with no validation, whenever that field is present and
non-empty; when it is absent or empty it falls back to the provider
default network (created if absent), returning that network's id whenever
the provider yields one. -/
theorem get_network_id_truthy_verbatim (p : Provider) (c : CloudLaunchConfig) :
    (∀ s : String, c.network = some s → s ≠ "" →
      get_network_id p c = (some s, []))
  ∧ ((c.network = none ∨ c.network = some "") →
      ∀ net : Network, p.default_network = some net →
        get_network_id p c = (some net.id, [Event.getOrCreateDefaultNetwork])) := by
  constructor
  · intro s hs hne
    simp [get_network_id, hs, pyTruthy, hne]
  · rintro (h | h) <;> intro net hnet <;>
      simp [get_network_id, h, pyTruthy, hnet]

/-- Claim C8 amended, witnessed on a present non-empty network value. -/
theorem get_network_id_truthy_verbatim_witness :
    cNet.network = some "mynet"
  ∧ get_network_id p0 cNet = (some "mynet", []) :=
  ⟨rfl, (get_network_id_truthy_verbatim p0 cNet).1 "mynet" rfl (by decide)⟩

/-- Claim C6: an instance that already has public IPs keeps them:
attach_public_ip returns the first public IP of the instance and issues no
provider call at all (no floating-IP scan, attachment or allocation). -/
theorem attach_public_ip_existing_ip_no_mutation (p : Provider)
    (inst : Instance) (ip : String) (rest : List String)
    (h : inst.public_ips = ip :: rest) :
    attach_public_ip p inst = (some ip, []) := by
  simp [attach_public_ip, h]

/-- Claim C6, witnessed on an instance with two public IPs. -/
theorem attach_public_ip_existing_ip_no_mutation_witness :
    inst1.public_ips = "5.5.5.5" :: ["6.6.6.6"]
  ∧ attach_public_ip p0 inst1 = (some "5.5.5.5", []) :=
  ⟨rfl,
   attach_public_ip_existing_ip_no_mutation p0 inst1 "5.5.5.5" ["6.6.6.6"] rfl⟩

/-- Claim C1 counterexample: with two firewall groups A and B on an empty
account, the call trace of apply_app_firewall_settings holds exactly the
calls for group A; no lookup or creation for group B is ever issued, so the
second entry is not computed at all, contradicting the claim that
subsequent entries are computed and merely discarded. -/
theorem apply_firewall_second_group_untouched :
    (apply_app_firewall_settings p0 c2).fst = some ⟨"sg-new-id", "A"⟩
  ∧ (apply_app_firewall_settings p0 c2).snd =
      [Event.findSG "A", Event.getOrCreateDefaultNetwork,
       Event.createSG "A" "Created by CloudLaunch" (some "defnet")]
  ∧ Event.findSG "B" ∉ (apply_app_firewall_settings p0 c2).snd := by decide

/-- Claim C1 amended: apply_app_firewall_settings applies only the first
firewall group entry and returns its security group; subsequent entries
are not processed at all: running on the full list is indistinguishable,
result and provider calls alike, from running on the first entry alone. -/
theorem apply_firewall_first_group_only (p : Provider) (c : CloudLaunchConfig)
    (g : FirewallGroup) (rest : List FirewallGroup)
    (h : c.firewall = some (g :: rest)) :
    apply_app_firewall_settings p c
      = apply_app_firewall_settings p { c with firewall := some [g] } := by
  simp [apply_app_firewall_settings, h, get_or_create_sg, get_network_id]

/-- Claim C1 amended, witnessed on the two-group config. -/
theorem apply_firewall_first_group_only_witness :
    c2.firewall = some [gA, gB]
  ∧ apply_app_firewall_settings p0 c2
      = apply_app_firewall_settings p0 { c2 with firewall := some [gA] } :=
  ⟨rfl, apply_firewall_first_group_only p0 c2 gA [gB] rfl⟩

/-- Claim C4: a failure raised while adding an individual firewall rule is
caught (printed) and never propagated: the loop continues with the next
rule of the group, and neither the returned security group nor the overall
launch result depends on which rule additions fail. -/
theorem add_rule_failure_swallowed (p : Provider)
    (f g : String → FirewallRule → Bool)
    (sg : SecurityGroup) (rule : FirewallRule) (rest : List FirewallRule)
    (hfail : f sg.name rule = false) :
    apply_rules { p with add_rule_ok := f } sg (rule :: rest)
      = (add_rule { p with add_rule_ok := f } sg rule).snd
        ++ Event.printed :: apply_rules { p with add_rule_ok := f } sg rest
  ∧ (∀ c : CloudLaunchConfig,
      (apply_app_firewall_settings { p with add_rule_ok := f } c).fst
        = (apply_app_firewall_settings { p with add_rule_ok := g } c).fst)
  ∧ (∀ (b : Bool) (name ud : String) (cvc : CloudVersionConfig)
        (ac : Option CloudLaunchConfig),
      (launch_app b { p with add_rule_ok := f } name cvc ac ud).fst
        = (launch_app b { p with add_rule_ok := g } name cvc ac ud).fst) := by
  refine ⟨?_, ?_, ?_⟩
  · simp [apply_rules, add_rule, hfail]
  · intro c
    rw [apply_firewall_fst_ignores_rule_failures p f c,
        apply_firewall_fst_ignores_rule_failures p g c]
  · intro b name ud cvc ac
    rw [launch_app_fst_ignores_rule_failures p f b name cvc ac ud,
        launch_app_fst_ignores_rule_failures p g b name cvc ac ud]

/-- Claim C4, witnessed with an oracle failing every rule addition against
one under which every addition succeeds. -/
theorem add_rule_failure_swallowed_witness :
    f0 sgA.name rule0 = false
  ∧ apply_rules { p0 with add_rule_ok := f0 } sgA [rule0]
      = (add_rule { p0 with add_rule_ok := f0 } sgA rule0).snd
        ++ Event.printed :: apply_rules { p0 with add_rule_ok := f0 } sgA []
  ∧ (apply_app_firewall_settings { p0 with add_rule_ok := f0 } c2).fst
      = (apply_app_firewall_settings { p0 with add_rule_ok := g0 } c2).fst
  ∧ (launch_app true { p0 with add_rule_ok := f0 } "vm" cvc0 (some c2) "ud").fst
      = (launch_app true { p0 with add_rule_ok := g0 } "vm" cvc0
          (some c2) "ud").fst :=
  ⟨rfl,
   (add_rule_failure_swallowed p0 f0 g0 sgA rule0 [] rfl).1,
   (add_rule_failure_swallowed p0 f0 g0 sgA rule0 [] rfl).2.1 c2,
   (add_rule_failure_swallowed p0 f0 g0 sgA rule0 [] rfl).2.2
     true "vm" "ud" cvc0 (some c2)⟩

/-- Claim C5: for an instance with no public IP, attach_public_ip attaches
and returns the last not-in-use floating IP encountered in the account
scan (last-seen-wins, stated via the first hit on the reversed scan list)
without allocating a new one; when no floating IP is available it requests
exactly one new IP from the provider, attaches it and returns it. -/
theorem attach_public_ip_reuse_or_allocate (p : Provider) (inst : Instance)
    (h : inst.public_ips = []) :
    (∀ fip : FloatingIP,
      p.floating_ips.reverse.find? (fun ip => !ip.in_use) = some fip →
        attach_public_ip p inst
          = (some fip.public_ip,
             [Event.listFloatingIPs, Event.printed,
              Event.addFloatingIPToInstance fip.public_ip]))
  ∧ (p.floating_ips.reverse.find? (fun ip => !ip.in_use) = none →
      attach_public_ip p inst
        = (some p.new_floating_ip,
           [Event.listFloatingIPs, Event.createFloatingIP,
            Event.addFloatingIPToInstance p.new_floating_ip])) := by
  constructor
  · intro fip hf
    have hl := last_available_fip_eq p.floating_ips
    rw [hf] at hl
    simp [attach_public_ip, h, hl]
  · intro hf
    have hl := last_available_fip_eq p.floating_ips
    rw [hf] at hl
    simp [attach_public_ip, h, hl]

/-- Claim C5, witnessed on a scan with two available IPs: the later one,
2.2.2.2, is chosen and no allocation happens. -/
theorem attach_public_ip_reuse_or_allocate_witness :
    inst0.public_ips = []
  ∧ pReuse.floating_ips.reverse.find? (fun ip => !ip.in_use)
      = some ⟨"2.2.2.2", false⟩
  ∧ attach_public_ip pReuse inst0
      = (some "2.2.2.2",
         [Event.listFloatingIPs, Event.printed,
          Event.addFloatingIPToInstance "2.2.2.2"]) :=
  ⟨rfl, by decide,
   (attach_public_ip_reuse_or_allocate pReuse inst0 rfl).1
     ⟨"2.2.2.2", false⟩ (by decide)⟩

/-- Claim C9 counterexample: with a present-but-empty firewall list the
orchestrator does not build a result from the nil security group: the
launch fails with an attribute error at the result-assembly step, so no
launch result is produced. -/
theorem launch_app_empty_firewall_attribute_error :
    cEmptyFW.firewall = some []
  ∧ apply_app_firewall_settings p0 cEmptyFW = (none, [])
  ∧ (launch_app true p0 "vm" cvc0 (some cEmptyFW) "ud").fst
      = Except.error "AttributeError: NoneType object has no attribute id" :=
  ⟨rfl, rfl, rfl⟩

/-- Claim C9 amended: when the firewall list is absent or empty,
apply_app_firewall_settings returns nil having issued no provider call (in
particular the default CloudLaunchDefault group is never created), and
launch_app then fails with an attribute error when it tries to build its
result from the nil security group, producing no launch result. -/
theorem empty_firewall_no_sg_and_launch_fails (p : Provider)
    (c : CloudLaunchConfig) (b : Bool) (name ud : String)
    (cvc : CloudVersionConfig)
    (h : c.firewall = none ∨ c.firewall = some []) :
    apply_app_firewall_settings p c = (none, [])
  ∧ (launch_app b p name cvc (some c) ud).fst
      = Except.error "AttributeError: NoneType object has no attribute id" := by
  have hfw : c.firewall.getD [] = [] := by rcases h with h | h <;> simp [h]
  constructor
  · simp [apply_app_firewall_settings, hfw]
  · unfold launch_app
    simp [apply_app_firewall_settings, hfw]

/-- Claim C9 amended, witnessed on the empty-firewall config. -/
theorem empty_firewall_no_sg_and_launch_fails_witness :
    (cEmptyFW.firewall = none ∨ cEmptyFW.firewall = some [])
  ∧ apply_app_firewall_settings p0 cEmptyFW = (none, [])
  ∧ (launch_app false p0 "vm" cvc0 (some cEmptyFW) "ud").fst
      = Except.error "AttributeError: NoneType object has no attribute id" :=
  ⟨Or.inr rfl,
   empty_firewall_no_sg_and_launch_fails p0 cEmptyFW false "vm" "ud" cvc0
     (Or.inr rfl)⟩

end BaseVMApp
